import Mathlib

/-!
Verification of the Smart Test Prioritizer
(`testing-suite/ai-testing/smart_test_prioritizer.py`).

This file gives a shallow embedding of the scoring, classification,
budget-selection, planning and history components of the prioritizer, and
proves or refutes the frozen claims about them.

Modelling conventions:
* Python floats are embedded as exact rationals (`ℚ`).  Every numeric
  literal of the source appears as the corresponding rational.
* The `last_failure` field stores an ISO date string in the source; the
  scoring code only observes (a) whether the field is set, (b) whether the
  string parses, and (c) the whole number of days between the parsed date
  and `datetime.now()`.  We embed that observation directly:
  `none` = field absent, `some none` = set but unparseable,
  `some (some d)` = parses, with `d` days elapsed (may be negative for a
  future date).
* Python dicts with `.get(key, default)` access are embedded as
  association lists read through `dict_get`.
* The mutable `historical_performance` defaultdict is embedded
  extensionally as a total function `String → List ℚ`, with `[]` standing
  for an absent key (the only writer, `update_performance_history`,
  always leaves a non-empty window, so the two are observationally equal).
  Methods that can touch this state are embedded in state-passing style
  (`_st` suffix), returning the result together with the state.
* The trained sklearn model plus scaler is an external capability; it is
  embedded as a `Predictor : List ℚ → Except Unit ℚ`, where `Except.error`
  stands for any raised exception (the whole `try` body of
  `_calculate_ml_score`).
* Division in the source is Python float division, which raises
  `ZeroDivisionError` on a zero denominator.  Where a zero denominator is
  reachable it is modelled explicitly (`recency_score_of` reproduces the
  caught exception at days = -7; `generate_smart_phases` returns
  `Except.error` for the uncaught 0/0).  The remaining divisions are used
  by theorems only at denominators proved or computed non-zero.
-/

/-- BusinessImpact enum of the source (a `str` enum with four members). -/
inductive BusinessImpact
  | CRITICAL
  | HIGH
  | MEDIUM
  | LOW
deriving DecidableEq

/-- RiskLevel enum of the source. -/
inductive RiskLevel
  | CRITICAL
  | HIGH
  | MEDIUM
  | LOW
deriving DecidableEq

/-- ExecutionFrequency enum of the source. -/
inductive ExecutionFrequency
  | EVERY_COMMIT
  | EVERY_BUILD
  | DAILY
  | WEEKLY
deriving DecidableEq

/-- The `.value` string of a BusinessImpact member (it is a `str` enum). -/
def impact_value : BusinessImpact → String
  | BusinessImpact.CRITICAL => "CRITICAL"
  | BusinessImpact.HIGH => "HIGH"
  | BusinessImpact.MEDIUM => "MEDIUM"
  | BusinessImpact.LOW => "LOW"

/-- TestCase dataclass.  `last_failure` is embedded as described in the
module docstring; the other fields are as in the source. -/
structure TestCase where
  name : String
  file_path : String
  test_type : String
  execution_time : ℚ
  last_failure : Option (Option ℤ) := none
  failure_count : ℤ := 0
  code_coverage : ℚ := 0
  business_impact : BusinessImpact := BusinessImpact.MEDIUM
  dependencies : Option (List String) := none
deriving DecidableEq

/-- Tagged embedding of the explanation strings appended by
`_generate_reasoning`; each constructor stands for one `reasoning.append`
site, carrying the data interpolated into the f-string. -/
inductive Reason
  | high_failure_rate (failure_count : ℤ)
  | high_business_impact (impact : BusinessImpact)
  | high_code_coverage (coverage : ℚ)
  | test_file_recently_modified
  | critical_test_type (test_type : String)
  | fast_execution_time
  | urgent_run_immediately
  | high_priority_next_cycle
deriving DecidableEq

/-- TestPriority dataclass. -/
structure TestPriority where
  test_case : TestCase
  priority_score : ℚ
  risk_level : RiskLevel
  reasoning : List Reason
  recommended_frequency : ExecutionFrequency
deriving DecidableEq

/-- Config class.  `weight_config` is a dict with five fixed literal keys,
embedded as five fields; the two dicts read through `.get` are embedded as
association lists. -/
structure Config where
  weight_failure_history : ℚ
  weight_business_impact : ℚ
  weight_code_coverage : ℚ
  weight_execution_time : ℚ
  weight_code_changes : ℚ
  business_impact_scores : List (BusinessImpact × ℚ)
  test_type_weights : List (String × ℚ)
  risk_thresholds : List (ℚ × RiskLevel)

/-- The default `Config()` values of the source. -/
def defaultConfig : Config where
  weight_failure_history := 3/10
  weight_business_impact := 1/4
  weight_code_coverage := 1/5
  weight_execution_time := 1/10
  weight_code_changes := 3/20
  business_impact_scores :=
    [(BusinessImpact.CRITICAL, 1), (BusinessImpact.HIGH, 4/5),
     (BusinessImpact.MEDIUM, 1/2), (BusinessImpact.LOW, 1/5)]
  test_type_weights :=
    [("SECURITY", 1), ("API", 9/10), ("DATABASE", 4/5),
     ("INTEGRATION", 7/10), ("UNIT", 1/2), ("UI", 3/5)]
  risk_thresholds :=
    [(4/5, RiskLevel.CRITICAL), (3/5, RiskLevel.HIGH),
     (2/5, RiskLevel.MEDIUM), (0, RiskLevel.LOW)]

/-- Python `d.get(k, default)` on an association list. -/
def dict_get [BEq κ] (k : κ) (d : List (κ × ℚ)) (dflt : ℚ) : ℚ :=
  (d.lookup k).getD dflt

/-- Python substring test `needle in haystack`. -/
def substring_of (needle haystack : String) : Bool :=
  haystack.data.tails.any (fun t => needle.data.isPrefixOf t)

/-- The `historical_performance` map, embedded extensionally
(`[]` = absent key). -/
def Hist : Type := String → List ℚ

/-- The fresh `defaultdict(list)` created in `__init__`. -/
def empty_history : Hist := fun _ => []

/-- The external inference capability (scaler.transform + ml_model.predict
inside the `try` of `_calculate_ml_score`); `Except.error` stands for any
raised exception. -/
def Predictor : Type := List ℚ → Except Unit ℚ

/-- The recency sub-score computed inside `_calculate_failure_score`
(lines 313-321): default 0.5; when `last_failure` parses,
`1.0 / (1.0 + days_since_failure / 7.0)`, with the `ZeroDivisionError` at
days = -7 swallowed by the bare `except` (leaving the default). -/
def recency_score_of : Option (Option ℤ) → ℚ
  | some (some days_since_failure) =>
      if 1 + (days_since_failure : ℚ) / 7 = 0 then 1/2
      else 1 / (1 + (days_since_failure : ℚ) / 7)
  | _ => 1/2

/-- `_calculate_failure_score` (lines 305-323). -/
def calculate_failure_score (test_case : TestCase) : ℚ :=
  if test_case.failure_count = 0 then 1/10
  else
    let failure_frequency := min ((test_case.failure_count : ℚ) / 10) 1
    let recency_score := recency_score_of test_case.last_failure
    (failure_frequency + recency_score) / 2

/-- The `critical_patterns` list of `_calculate_change_impact_score`. -/
def critical_patterns : List String := ["auth", "security", "payment", "database"]

/-- `_calculate_change_impact_score` (lines 325-350).  The three additive
contributions are: direct file match (+0.8), +0.3 per affected dependency,
and +0.2 per change matching a critical pattern. -/
def calculate_change_impact_score (test_case : TestCase)
    (recent_changes : List String) : ℚ :=
  if recent_changes = [] then 1/10
  else
    let direct_impact : ℚ := if test_case.file_path ∈ recent_changes then 4/5 else 0
    let dependency_impact : ℚ :=
      match test_case.dependencies with
      | none => 0
      | some deps =>
          ((deps.filter (fun dependency =>
              recent_changes.any (fun change => substring_of dependency change))).length : ℚ)
            * (3/10)
    let pattern_impact : ℚ :=
      ((recent_changes.filter (fun change =>
          critical_patterns.any (fun pat => substring_of pat change.toLower))).length : ℚ)
        * (1/5)
    min (direct_impact + dependency_impact + pattern_impact) 1

/-- `_calculate_traditional_score` (lines 117-134). -/
def calculate_traditional_score (cfg : Config) (test_case : TestCase)
    (recent_changes : List String) : ℚ :=
  let failure_score := calculate_failure_score test_case
  let business_score := dict_get test_case.business_impact cfg.business_impact_scores (1/2)
  let coverage_score := test_case.code_coverage / 100
  let time_score := 1 / (1 + test_case.execution_time / 60)
  let change_score := calculate_change_impact_score test_case recent_changes
  let type_score := dict_get test_case.test_type cfg.test_type_weights (1/2)
  let final_score :=
    (failure_score * cfg.weight_failure_history +
     business_score * cfg.weight_business_impact +
     coverage_score * cfg.weight_code_coverage +
     time_score * cfg.weight_execution_time +
     change_score * cfg.weight_code_changes) * type_score
  min final_score 1

/-- The `business_impact_map` dict of `_extract_ml_features`. -/
def business_impact_map : List (String × ℚ) :=
  [("CRITICAL", 4), ("HIGH", 3), ("MEDIUM", 2), ("LOW", 1)]

/-- The `test_types` list of `_extract_ml_features`. -/
def test_types : List String :=
  ["SECURITY", "API", "DATABASE", "INTEGRATION", "UNIT", "UI"]

/-- Python `np.mean`. -/
def np_mean (l : List ℚ) : ℚ := l.sum / l.length

/-- The feature vector built by `_extract_ml_features` (lines 150-187):
three numeric features, the business-impact code, a one-hot test-type
block, days since last failure (999 when absent or unparseable), the
change-impact score, and the historical average read from
`historical_performance.get(name, [0.5])`. -/
def extract_ml_features_pure (h : Hist) (test_case : TestCase)
    (recent_changes : List String) : List ℚ :=
  [(test_case.failure_count : ℚ), test_case.execution_time, test_case.code_coverage,
   dict_get (impact_value test_case.business_impact) business_impact_map 2]
  ++ test_types.map (fun ty => if test_case.test_type = ty then (1 : ℚ) else 0)
  ++ [(match test_case.last_failure with
       | some (some d) => (d : ℚ)
       | some none => 999
       | none => 999)]
  ++ [calculate_change_impact_score test_case recent_changes]
  ++ [np_mean (if h test_case.name = [] then [1/2] else h test_case.name)]

/-- `_extract_ml_features`, state-passing: it reads the history map only
through `.get`, which never inserts, so the state comes back unchanged. -/
def extract_ml_features_st (h : Hist) (test_case : TestCase)
    (recent_changes : List String) : List ℚ × Hist :=
  (extract_ml_features_pure h test_case recent_changes, h)

/-- `_calculate_ml_score` (lines 136-148): extract features; if the list is
non-empty, run the predictor and clamp its result into [0, 1]; any
exception (or an empty feature list) yields the 0.5 fallback. -/
def calculate_ml_score_st (pred : Predictor) (h : Hist) (test_case : TestCase)
    (recent_changes : List String) : ℚ × Hist :=
  let fh := extract_ml_features_st h test_case recent_changes
  (if fh.1 = [] then 1/2
   else
     match pred fh.1 with
     | Except.error _ => 1/2
     | Except.ok prediction => max 0 (min 1 prediction), fh.2)

/-- `calculate_priority_score` (lines 102-115): heuristic baseline, blended
`0.3 · traditional + 0.7 · ml` when `model_trained and ml_model`. -/
def calculate_priority_score_st (cfg : Config) (model_trained : Bool)
    (ml_model : Option Predictor) (h : Hist) (test_case : TestCase)
    (recent_changes : List String) : ℚ × Hist :=
  let traditional_score := calculate_traditional_score cfg test_case recent_changes
  match model_trained, ml_model with
  | true, some pred =>
      let mh := calculate_ml_score_st pred h test_case recent_changes
      (traditional_score * (3/10) + mh.1 * (7/10), mh.2)
  | _, _ => (traditional_score, h)

/-- `_determine_risk_level` (lines 384-389): first threshold the score
reaches, `LOW` as fallback. -/
def determine_risk_level (cfg : Config) (score : ℚ) : RiskLevel :=
  match cfg.risk_thresholds.find? (fun t => decide (t.1 ≤ score)) with
  | some t => t.2
  | none => RiskLevel.LOW

/-- `_generate_reasoning` (lines 391-418). -/
def generate_reasoning (test_case : TestCase) (score : ℚ)
    (recent_changes : List String) : List Reason :=
  (if 5 < test_case.failure_count then [Reason.high_failure_rate test_case.failure_count] else [])
  ++ (if test_case.business_impact = BusinessImpact.CRITICAL ∨
         test_case.business_impact = BusinessImpact.HIGH then
        [Reason.high_business_impact test_case.business_impact] else [])
  ++ (if 80 < test_case.code_coverage then [Reason.high_code_coverage test_case.code_coverage] else [])
  ++ (if ¬ recent_changes = [] ∧ test_case.file_path ∈ recent_changes then
        [Reason.test_file_recently_modified] else [])
  ++ (if test_case.test_type = "SECURITY" ∨ test_case.test_type = "API" then
        [Reason.critical_test_type test_case.test_type] else [])
  ++ (if test_case.execution_time < 30 then [Reason.fast_execution_time] else [])
  ++ (if 4/5 ≤ score then [Reason.urgent_run_immediately]
      else if 3/5 ≤ score then [Reason.high_priority_next_cycle] else [])

/-- `_recommend_frequency` (lines 420-431). -/
def recommend_frequency (score : ℚ) (test_type : String) : ExecutionFrequency :=
  if 4/5 ≤ score then ExecutionFrequency.EVERY_COMMIT
  else if 3/5 ≤ score then ExecutionFrequency.EVERY_BUILD
  else if 2/5 ≤ score then ExecutionFrequency.DAILY
  else if test_type = "UNIT" then ExecutionFrequency.EVERY_BUILD
  else ExecutionFrequency.WEEKLY

/-- Descending-score comparison used by `priorities.sort(key=score,
reverse=True)`; Python's sort is stable, which `List.insertionSort` with a
non-strict comparison reproduces. -/
def score_desc (a b : TestPriority) : Prop := b.priority_score ≤ a.priority_score

instance : DecidableRel score_desc :=
  fun a b => inferInstanceAs (Decidable (b.priority_score ≤ a.priority_score))

instance : IsTotal TestPriority score_desc :=
  ⟨fun a b => le_total b.priority_score a.priority_score⟩

instance : IsTrans TestPriority score_desc :=
  ⟨fun _ _ _ h1 h2 => le_trans h2 h1⟩

/-- The `score / max(execution_time, 1)` ratio used by the budget optimizer
and the sequence optimizer. -/
def efficiency_ratio_of (p : TestPriority) : ℚ :=
  p.priority_score / max p.test_case.execution_time 1

/-- Descending-ratio comparison for `remaining.sort(key=ratio, reverse=True)`. -/
def ratio_desc (a b : TestPriority) : Prop :=
  efficiency_ratio_of b ≤ efficiency_ratio_of a

instance : DecidableRel ratio_desc :=
  fun a b => inferInstanceAs (Decidable (efficiency_ratio_of b ≤ efficiency_ratio_of a))

/-- The greedy accumulation loop of `_optimize_for_time_budget`
(lines 444-448), tracking `total_time`. -/
def greedy_select (time_budget : ℚ) : List TestPriority → ℚ → List TestPriority
  | [], _ => []
  | p :: rest, total_time =>
      if total_time + p.test_case.execution_time ≤ time_budget then
        p :: greedy_select time_budget rest (total_time + p.test_case.execution_time)
      else greedy_select time_budget rest total_time

/-- `_optimize_for_time_budget` (lines 433-449): stable sort by
score-per-time ratio descending, then greedy selection under the budget. -/
def optimize_for_time_budget (priorities : List TestPriority)
    (time_budget : ℚ) : List TestPriority :=
  greedy_select time_budget (List.insertionSort ratio_desc priorities) 0

/-- The per-test body of the `prioritize_tests` loop (lines 359-373),
threading the history state through `calculate_priority_score`. -/
def prioritize_loop (cfg : Config) (model_trained : Bool)
    (ml_model : Option Predictor) (recent_changes : List String) :
    List TestCase → Hist → List TestPriority × Hist
  | [], h => ([], h)
  | test_case :: rest, h =>
      let sh := calculate_priority_score_st cfg model_trained ml_model h test_case recent_changes
      let priority : TestPriority :=
        { test_case := test_case
          priority_score := sh.1
          risk_level := determine_risk_level cfg sh.1
          reasoning := generate_reasoning test_case sh.1 recent_changes
          recommended_frequency := recommend_frequency sh.1 test_case.test_type }
      let r := prioritize_loop cfg model_trained ml_model recent_changes rest sh.2
      (priority :: r.1, r.2)

/-- `prioritize_tests` (lines 352-382): score every test, stable-sort by
score descending, and, when `time_budget` is truthy (present and non-zero),
apply the budget optimizer. -/
def prioritize_tests_st (cfg : Config) (model_trained : Bool)
    (ml_model : Option Predictor) (test_cases : List TestCase)
    (recent_changes : List String) (time_budget : Option ℚ) (h : Hist) :
    List TestPriority × Hist :=
  let r := prioritize_loop cfg model_trained ml_model recent_changes test_cases h
  let priorities := List.insertionSort score_desc r.1
  (match time_budget with
   | some budget =>
       if budget = 0 then priorities else optimize_for_time_budget priorities budget
   | none => priorities, r.2)

/-- `update_performance_history` (lines 703-708): append the observation,
then keep only the last 50 entries. -/
def update_performance_history (h : Hist) (test_name : String)
    (actual_priority : ℚ) : Hist :=
  fun n =>
    if n = test_name then
      let appended := h test_name ++ [actual_priority]
      if 50 < appended.length then appended.drop (appended.length - 50) else appended
    else h n

/-- A sequence of `update_performance_history(name, value)` calls, applied
in order to a history state. -/
def apply_history_updates (h : Hist) : List (String × ℚ) → Hist
  | [] => h
  | (n, v) :: rest => apply_history_updates (update_performance_history h n v) rest

/-- The values recorded for one test name by a call sequence, in recording
order. -/
def recorded_values (test_name : String) (calls : List (String × ℚ)) : List ℚ :=
  (calls.filter (fun c => decide (c.1 = test_name))).map (fun c => c.2)

/-- The last `k` elements of a list (Python `l[-k:]` for `k ≤ len(l)`,
`l` itself otherwise). -/
def last_window (k : ℕ) (l : List ℚ) : List ℚ := l.drop (l.length - k)

/-- Sum of `execution_time` over a list of scored tests (the quantity the
optimizer tracks as `total_time`, and the `total_time` aggregates of the
plan synthesizer). -/
def total_execution_time (l : List TestPriority) : ℚ :=
  (l.map (fun p => p.test_case.execution_time)).sum

/-- The `summary` dict built by `generate_execution_plan` (lines 468-473). -/
structure Summary where
  total_tests : ℕ
  estimated_time_minutes : ℚ
  ml_model_active : Bool
  optimization_score : ℚ
deriving DecidableEq

/-- The dict built by `_analyze_priority_distribution` (lines 538-549).
The source stores `np.std(scores)`; the standard deviation is irrational
in general, so we record its radicand `var_priority` (the population
variance); `np.std` is its square root and is total on it, so the
raising behaviour of the plan is unaffected. -/
structure PriorityDistribution where
  mean_priority : ℚ
  var_priority : ℚ
  high_priority_ratio : ℚ
  low_priority_ratio : ℚ
deriving DecidableEq

/-- One entry of `_identify_risk_patterns` (lines 551-571); the
`pattern_type` and `recommendation` strings are determined by the
`test_type`, so only the data is carried. -/
structure RiskPattern where
  test_type : String
  average_score : ℚ
  test_count : ℕ
deriving DecidableEq

/-- Tagged embedding of the advisory dicts of
`_find_optimization_opportunities` (lines 573-597). -/
inductive Opportunity
  | slow_low_priority (count : ℕ)
  | flaky_tests (count : ℕ)
deriving DecidableEq

/-- One entry of the `_optimize_test_sequence` output (lines 494-514). -/
structure SequenceItem where
  position : ℕ
  test_name : String
  priority_score : ℚ
  efficiency_ratio : ℚ
  estimated_start_time : ℚ
deriving DecidableEq

/-- The `ml_insights` dict of `_generate_ml_insights` (lines 483-492);
`priority_distribution` is `none` for the empty `{}` returned on an empty
batch. -/
structure MLInsights where
  feature_importance : List (String × ℚ)
  priority_distribution : Option PriorityDistribution
  risk_patterns : List RiskPattern
  optimization_opportunities : List Opportunity
deriving DecidableEq

/-- Tagged embedding of the advisory strings of
`_generate_plan_recommendations` (lines 638-654). -/
inductive Recommendation
  | high_critical_count (count : ℕ)
  | optimize_slow_tests (count : ℕ)
  | prioritize_security_tests (count : ℕ)
deriving DecidableEq

/-- The dict of `_predict_execution_performance` (lines 619-636). -/
structure Predictions where
  estimated_total_time_minutes : ℚ
  parallel_execution_time_minutes : ℚ
  expected_failures : ℕ
  success_probability : ℚ
  bottleneck_tests : List String
deriving DecidableEq

/-- The `phase_1_critical` dict of `_generate_smart_phases` (lines 526-534). -/
structure CriticalPhase where
  parallel_batch_1 : List String
  sequential_batch : List String
  estimated_time : ℚ
  parallelization_factor : ℕ
deriving DecidableEq

/-- The execution plan dict of `generate_execution_plan` (lines 467-479);
`execution_phases` is `none` when the CRITICAL group is empty (empty
`phases` dict), `performance_predictions` is `none` for the empty `{}` on
an empty batch. -/
structure ExecutionPlan where
  summary : Summary
  ml_insights : MLInsights
  optimal_sequence : List SequenceItem
  execution_phases : Option CriticalPhase
  advanced_recommendations : List Recommendation
  performance_predictions : Option Predictions
deriving DecidableEq

/-- `_analyze_priority_distribution` (lines 538-549). -/
def analyze_priority_distribution (priorities : List TestPriority) :
    Option PriorityDistribution :=
  let scores := priorities.map (fun p => p.priority_score)
  if scores = [] then none
  else some
    { mean_priority := np_mean scores
      var_priority := np_mean (scores.map (fun s => (s - np_mean scores) ^ 2))
      high_priority_ratio := ((scores.filter (fun s => decide (7/10 < s))).length : ℚ) / scores.length
      low_priority_ratio := ((scores.filter (fun s => decide (s < 3/10))).length : ℚ) / scores.length }

/-- First-occurrence key order of a Python `defaultdict` grouping loop. -/
def keys_in_order [DecidableEq α] (l : List α) : List α :=
  l.foldl (fun acc x => if x ∈ acc then acc else acc ++ [x]) []

/-- `_identify_risk_patterns` (lines 551-571): group by `test_type` in
first-appearance order, keep the groups whose average score exceeds 0.7. -/
def identify_risk_patterns (priorities : List TestPriority) : List RiskPattern :=
  (keys_in_order (priorities.map (fun p => p.test_case.test_type))).filterMap
    (fun ty =>
      let tests := priorities.filter (fun p => decide (p.test_case.test_type = ty))
      let avg_score := np_mean (tests.map (fun t => t.priority_score))
      if 7/10 < avg_score then
        some { test_type := ty, average_score := avg_score, test_count := tests.length }
      else none)

/-- `_find_optimization_opportunities` (lines 573-597). -/
def find_optimization_opportunities (priorities : List TestPriority) :
    List Opportunity :=
  let slow_low_priority := priorities.filter
    (fun p => decide (300 < p.test_case.execution_time ∧ p.priority_score < 2/5))
  let flaky_tests := priorities.filter (fun p => decide (5 < p.test_case.failure_count))
  (if ¬ slow_low_priority = [] then [Opportunity.slow_low_priority slow_low_priority.length] else [])
  ++ (if ¬ flaky_tests = [] then [Opportunity.flaky_tests flaky_tests.length] else [])

/-- `_generate_ml_insights` (lines 483-492). -/
def generate_ml_insights (model_trained : Bool)
    (feature_importance : List (String × ℚ)) (priorities : List TestPriority) :
    MLInsights :=
  { feature_importance := if model_trained then feature_importance else []
    priority_distribution := analyze_priority_distribution priorities
    risk_patterns := identify_risk_patterns priorities
    optimization_opportunities := find_optimization_opportunities priorities }

/-- `_optimize_test_sequence` (lines 494-514): stable sort by ratio
descending, then describe the first 10 entries, each with the running
start time of the tests sorted before it. -/
def optimize_test_sequence (priorities : List TestPriority) : List SequenceItem :=
  if priorities = [] then []
  else
    let sorted_tests := List.insertionSort ratio_desc priorities
    (sorted_tests.take 10).enum.map (fun ip =>
      { position := ip.1 + 1
        test_name := ip.2.test_case.name
        priority_score := ip.2.priority_score
        efficiency_ratio := efficiency_ratio_of ip.2
        estimated_start_time := total_execution_time (sorted_tests.take ip.1) })

/-- `_calculate_optimization_score` (lines 599-617). -/
def calculate_optimization_score (priorities : List TestPriority) : ℚ :=
  if priorities = [] then 0
  else
    let total_time := total_execution_time priorities
    let avg_priority := np_mean (priorities.map (fun p => p.priority_score))
    let avg_efficiency := np_mean (priorities.map efficiency_ratio_of)
    let time_factor := max 0 (1 - total_time / 3600)
    let priority_factor := avg_priority
    let efficiency_factor := min (avg_efficiency / (1/100)) 1
    time_factor * (3/10) + priority_factor * (2/5) + efficiency_factor * (3/10)

/-- `_predict_execution_performance` (lines 619-636). -/
def predict_execution_performance (priorities : List TestPriority) :
    Option Predictions :=
  if priorities = [] then none
  else
    let total_time := total_execution_time priorities
    let high_risk_tests := priorities.filter (fun p => decide (7/10 < p.priority_score))
    some
      { estimated_total_time_minutes := total_time / 60
        parallel_execution_time_minutes := total_time / (min priorities.length 8) / 60
        expected_failures := (priorities.filter (fun p => decide (2 < p.test_case.failure_count))).length
        success_probability :=
          max (1/2) (1 - (high_risk_tests.length : ℚ) / priorities.length * (3/10))
        bottleneck_tests :=
          ((priorities.filter (fun p => decide (300 < p.test_case.execution_time))).map
            (fun p => p.test_case.name)).take 3 }

/-- `_generate_plan_recommendations` (lines 638-654). -/
def generate_plan_recommendations (priorities : List TestPriority) :
    List Recommendation :=
  let critical_count := (priorities.filter (fun p => decide (p.risk_level = RiskLevel.CRITICAL))).length
  let slow_tests := priorities.filter (fun p => decide (300 < p.test_case.execution_time))
  let security_tests := priorities.filter (fun p => decide (p.test_case.test_type = "SECURITY"))
  (if 10 < critical_count then [Recommendation.high_critical_count critical_count] else [])
  ++ (if ¬ slow_tests = [] then [Recommendation.optimize_slow_tests slow_tests.length] else [])
  ++ (if ¬ security_tests = [] then [Recommendation.prioritize_security_tests security_tests.length] else [])

/-- `_generate_smart_phases` (lines 516-536).  The CRITICAL group of the
`by_risk` defaultdict is, in order, the CRITICAL-level entries of the
input.  When that group is non-empty, the phase time divides the fast
batch total by `min(len(fast_critical), 4)` — Python raises
`ZeroDivisionError` (0/0) when the fast batch is empty, modelled as
`Except.error`. -/
def generate_smart_phases (priorities : List TestPriority) :
    Except Unit (Option CriticalPhase) :=
  let critical_tests := priorities.filter (fun p => decide (p.risk_level = RiskLevel.CRITICAL))
  if critical_tests = [] then Except.ok none
  else
    let fast_critical := critical_tests.filter (fun p => decide (p.test_case.execution_time < 60))
    let slow_critical := critical_tests.filter (fun p => decide (60 ≤ p.test_case.execution_time))
    let pf := min fast_critical.length 4
    if pf = 0 then Except.error ()
    else Except.ok (some
      { parallel_batch_1 := fast_critical.map (fun p => p.test_case.name)
        sequential_batch := slow_critical.map (fun p => p.test_case.name)
        estimated_time :=
          max (total_execution_time fast_critical / pf) (total_execution_time slow_critical) / 60
        parallelization_factor := pf })

/-- `generate_execution_plan` (lines 451-481).  The only place the plan
computation can raise is the smart-phase division; every other component
guards its divisions behind non-emptiness checks. -/
def generate_execution_plan (model_trained : Bool)
    (feature_importance : List (String × ℚ)) (priorities : List TestPriority) :
    Except Unit ExecutionPlan :=
  match generate_smart_phases priorities with
  | Except.error e => Except.error e
  | Except.ok phases =>
      Except.ok
        { summary :=
            { total_tests := priorities.length
              estimated_time_minutes := total_execution_time priorities / 60
              ml_model_active := model_trained
              optimization_score := calculate_optimization_score priorities }
          ml_insights := generate_ml_insights model_trained feature_importance priorities
          optimal_sequence := optimize_test_sequence priorities
          execution_phases := phases
          advanced_recommendations := generate_plan_recommendations priorities
          performance_predictions := predict_execution_performance priorities }

/-- The TestCase of the spec's worked example: `{name: "t1", test_type:
"SECURITY", execution_time: 45, failure_count: 2, code_coverage: 85,
business_impact: CRITICAL}`. -/
def t1 : TestCase :=
  { name := "t1", file_path := "test_auth.py", test_type := "SECURITY",
    execution_time := 45, last_failure := none, failure_count := 2,
    code_coverage := 85, business_impact := BusinessImpact.CRITICAL,
    dependencies := none }

/-- A TestCase with an out-of-range (negative) `code_coverage` field, the
other numeric fields in range. -/
def tc_bad_coverage : TestCase :=
  { name := "bad", file_path := "test_bad.py", test_type := "UNIT",
    execution_time := 0, last_failure := none, failure_count := 0,
    code_coverage := -1000, business_impact := BusinessImpact.MEDIUM,
    dependencies := none }

/-- A predictor whose inference always raises. -/
def fail_predictor : Predictor := fun _ => Except.error ()

/-- A TestCase whose last failure parsed to 70 days ago. -/
def tc_old_failure : TestCase :=
  { name := "old", file_path := "test_old.py", test_type := "UNIT",
    execution_time := 10, last_failure := some (some 70), failure_count := 0,
    code_coverage := 50, business_impact := BusinessImpact.MEDIUM,
    dependencies := none }

/-- Two tie-score TestCases whose names are in descending order in the
input batch. -/
def tcase_b : TestCase :=
  { name := "b", file_path := "test_b.py", test_type := "UNIT",
    execution_time := 10, last_failure := none, failure_count := 0,
    code_coverage := 50, business_impact := BusinessImpact.MEDIUM,
    dependencies := none }

/-- The tie partner of `tcase_b`, identical except for name and file. -/
def tcase_a : TestCase :=
  { name := "a", file_path := "test_a.py", test_type := "UNIT",
    execution_time := 10, last_failure := none, failure_count := 0,
    code_coverage := 50, business_impact := BusinessImpact.MEDIUM,
    dependencies := none }

/-- A scored test taking 10 seconds (for budget counterexamples). -/
def priority_ten : TestPriority :=
  { test_case := tcase_b, priority_score := 249/1400,
    risk_level := RiskLevel.LOW, reasoning := [],
    recommended_frequency := ExecutionFrequency.WEEKLY }

/-- A CRITICAL-risk scored test whose execution time is at least 60
seconds (empty fast batch for the smart-phase split). -/
def priority_slow_critical : TestPriority :=
  { test_case :=
      { name := "slow_crit", file_path := "test_slow.py", test_type := "API",
        execution_time := 120, last_failure := none, failure_count := 8,
        code_coverage := 90, business_impact := BusinessImpact.CRITICAL,
        dependencies := none }
    priority_score := 9/10, risk_level := RiskLevel.CRITICAL, reasoning := [],
    recommended_frequency := ExecutionFrequency.EVERY_COMMIT }

/-- The spec's optimizer example: `(score, time)` pairs
`[(0.9, 100), (0.5, 10), (0.4, 5)]`. -/
def demo_priorities : List TestPriority :=
  [{ test_case := { tcase_a with name := "big", execution_time := 100 },
     priority_score := 9/10, risk_level := RiskLevel.CRITICAL, reasoning := [],
     recommended_frequency := ExecutionFrequency.EVERY_COMMIT },
   { test_case := { tcase_a with name := "mid", execution_time := 10 },
     priority_score := 1/2, risk_level := RiskLevel.MEDIUM, reasoning := [],
     recommended_frequency := ExecutionFrequency.DAILY },
   { test_case := { tcase_a with name := "small", execution_time := 5 },
     priority_score := 2/5, risk_level := RiskLevel.MEDIUM, reasoning := [],
     recommended_frequency := ExecutionFrequency.DAILY }]

/-! ## Helper lemmas -/

/-- A property holding for every value of an association list and for the
default holds for any `dict_get` read. -/
theorem dict_get_of_forall [BEq κ] (P : ℚ → Prop) (k : κ) (d : List (κ × ℚ))
    (dflt : ℚ) (hd : ∀ p ∈ d, P p.2) (hdflt : P dflt) : P (dict_get k d dflt) := by
  induction d with
  | nil => simpa [dict_get, List.lookup] using hdflt
  | cons a rest ih =>
      obtain ⟨ka, va⟩ := a
      by_cases hk : k == ka
      · simpa [dict_get, List.lookup, hk] using hd (ka, va) (by simp)
      · simp only [dict_get, List.lookup, hk] at *
        exact ih (fun p hp => hd p (by simp [hp]))

/-- Bounds for the recency sub-score when the last failure is not in the
future. -/
theorem recency_score_of_bounds (lf : Option (Option ℤ))
    (hlf : ∀ d, lf = some (some d) → 0 ≤ d) :
    0 ≤ recency_score_of lf ∧ recency_score_of lf ≤ 1 := by
  match lf with
  | none => norm_num [recency_score_of]
  | some none => norm_num [recency_score_of]
  | some (some d) =>
      have hd : (0 : ℚ) ≤ (d : ℚ) := by exact_mod_cast hlf d rfl
      have hpos : (0 : ℚ) < 1 + (d : ℚ) / 7 := by linarith
      simp only [recency_score_of]
      rw [if_neg (by linarith)]
      exact ⟨by positivity, by rw [div_le_one hpos]; linarith⟩

/-- Bounds for the failure signal on in-range inputs. -/
theorem calculate_failure_score_bounds (tc : TestCase)
    (hfc : 0 ≤ tc.failure_count)
    (hlf : ∀ d, tc.last_failure = some (some d) → 0 ≤ d) :
    0 ≤ calculate_failure_score tc ∧ calculate_failure_score tc ≤ 1 := by
  obtain ⟨hr0, hr1⟩ := recency_score_of_bounds tc.last_failure hlf
  unfold calculate_failure_score
  split
  · norm_num
  · have hfcq : (0 : ℚ) ≤ (tc.failure_count : ℚ) := by exact_mod_cast hfc
    have hm0 : (0 : ℚ) ≤ min ((tc.failure_count : ℚ) / 10) 1 :=
      le_min (by linarith) (by norm_num)
    have hm1 : min ((tc.failure_count : ℚ) / 10) 1 ≤ 1 := min_le_right _ _
    constructor <;> simp only [] <;> linarith

/-- Bounds for the change-impact signal. -/
theorem change_impact_score_bounds (tc : TestCase) (rc : List String) :
    0 ≤ calculate_change_impact_score tc rc ∧
      calculate_change_impact_score tc rc ≤ 1 := by
  unfold calculate_change_impact_score
  split
  · norm_num
  · refine ⟨le_min ?_ (by norm_num), min_le_right _ _⟩
    have hdir : (0 : ℚ) ≤ (if tc.file_path ∈ rc then (4/5 : ℚ) else 0) := by
      split <;> norm_num
    have hdep : (0 : ℚ) ≤ (match tc.dependencies with
        | none => (0 : ℚ)
        | some deps =>
            ((deps.filter (fun dependency =>
                rc.any (fun change => substring_of dependency change))).length : ℚ) * (3/10)) := by
      cases tc.dependencies with
      | none => norm_num
      | some deps => positivity
    have hpat : (0 : ℚ) ≤
        ((rc.filter (fun change =>
            critical_patterns.any (fun pat => substring_of pat change.toLower))).length : ℚ) * (1/5) := by
      positivity
    linarith

/-- Bounds for the traditional (heuristic) score with the default
configuration, on in-range inputs. -/
theorem traditional_score_bounds (tc : TestCase) (rc : List String)
    (hfc : 0 ≤ tc.failure_count) (het : 0 ≤ tc.execution_time)
    (hcc0 : 0 ≤ tc.code_coverage) (hcc1 : tc.code_coverage ≤ 100)
    (hlf : ∀ d, tc.last_failure = some (some d) → 0 ≤ d) :
    0 ≤ calculate_traditional_score defaultConfig tc rc ∧
      calculate_traditional_score defaultConfig tc rc ≤ 1 := by
  obtain ⟨hf0, hf1⟩ := calculate_failure_score_bounds tc hfc hlf
  obtain ⟨hch0, hch1⟩ := change_impact_score_bounds tc rc
  have hb : 0 ≤ dict_get tc.business_impact defaultConfig.business_impact_scores (1/2) ∧
      dict_get tc.business_impact defaultConfig.business_impact_scores (1/2) ≤ 1 := by
    refine dict_get_of_forall (fun x => 0 ≤ x ∧ x ≤ 1) _ _ _ ?_ (by norm_num)
    intro p hp
    simp only [defaultConfig, List.mem_cons, List.not_mem_nil, or_false] at hp
    rcases hp with rfl | rfl | rfl | rfl <;> norm_num
  have hty : 0 ≤ dict_get tc.test_type defaultConfig.test_type_weights (1/2) ∧
      dict_get tc.test_type defaultConfig.test_type_weights (1/2) ≤ 1 := by
    refine dict_get_of_forall (fun x => 0 ≤ x ∧ x ≤ 1) _ _ _ ?_ (by norm_num)
    intro p hp
    simp only [defaultConfig, List.mem_cons, List.not_mem_nil, or_false] at hp
    rcases hp with rfl | rfl | rfl | rfl | rfl | rfl <;> norm_num
  have hcv0 : (0 : ℚ) ≤ tc.code_coverage / 100 := by positivity
  have hcv1 : tc.code_coverage / 100 ≤ 1 := by rw [div_le_one (by norm_num)]; linarith
  have htpos : (0 : ℚ) < 1 + tc.execution_time / 60 := by linarith
  have htm0 : (0 : ℚ) ≤ 1 / (1 + tc.execution_time / 60) := by positivity
  have htm1 : 1 / (1 + tc.execution_time / 60) ≤ 1 := by
    rw [div_le_one htpos]; linarith
  obtain ⟨hb0, hb1⟩ := hb
  obtain ⟨hty0, hty1⟩ := hty
  unfold calculate_traditional_score
  simp only [defaultConfig]
  set f := calculate_failure_score tc
  set b := dict_get tc.business_impact
    [(BusinessImpact.CRITICAL, 1), (BusinessImpact.HIGH, 4/5),
     (BusinessImpact.MEDIUM, 1/2), (BusinessImpact.LOW, 1/5)] (1/2) with hbdef
  set cv := tc.code_coverage / 100
  set tm := 1 / (1 + tc.execution_time / 60)
  set ch := calculate_change_impact_score tc rc
  set ty := dict_get tc.test_type
    [("SECURITY", 1), ("API", 9/10), ("DATABASE", 4/5),
     ("INTEGRATION", 7/10), ("UNIT", 1/2), ("UI", 3/5)] (1/2) with htydef
  have hb0' : 0 ≤ b := by rw [hbdef]; simpa [defaultConfig] using hb0
  have hb1' : b ≤ 1 := by rw [hbdef]; simpa [defaultConfig] using hb1
  have hty0' : 0 ≤ ty := by rw [htydef]; simpa [defaultConfig] using hty0
  have hty1' : ty ≤ 1 := by rw [htydef]; simpa [defaultConfig] using hty1
  have hsum0 : 0 ≤ f * (3/10) + b * (1/4) + cv * (1/5) + tm * (1/10) + ch * (3/20) := by
    nlinarith
  have hsum1 : f * (3/10) + b * (1/4) + cv * (1/5) + tm * (1/10) + ch * (3/20) ≤ 1 := by
    nlinarith
  constructor
  · exact le_min (by nlinarith) (by norm_num)
  · exact min_le_right _ _

/-- The ML component of the ensemble is always in [0, 1], whatever the
predictor does. -/
theorem ml_score_bounds (pred : Predictor) (h : Hist) (tc : TestCase)
    (rc : List String) :
    0 ≤ (calculate_ml_score_st pred h tc rc).1 ∧
      (calculate_ml_score_st pred h tc rc).1 ≤ 1 := by
  unfold calculate_ml_score_st extract_ml_features_st
  simp only []
  split
  · norm_num
  · cases pred (extract_ml_features_pure h tc rc) with
    | error e => norm_num
    | ok prediction =>
        exact ⟨le_max_left _ _, max_le (by norm_num) (min_le_left _ _)⟩

/-- Stability of `orderedInsert` under the descending-score comparison:
the score-`s` entries of the inserted list are those of the original, with
the new element at the front exactly when its score is `s` (it only passes
strictly greater scores). -/
theorem filter_score_orderedInsert (s : ℚ) (x : TestPriority)
    (l : List TestPriority) :
    (List.orderedInsert score_desc x l).filter (fun p => decide (p.priority_score = s))
      = if x.priority_score = s
        then x :: l.filter (fun p => decide (p.priority_score = s))
        else l.filter (fun p => decide (p.priority_score = s)) := by
  induction l with
  | nil =>
      by_cases hx : x.priority_score = s <;> simp [List.orderedInsert, hx]
  | cons y ys ih =>
      by_cases hxy : score_desc x y
      · by_cases hx : x.priority_score = s <;>
          simp [List.orderedInsert, hxy, hx, List.filter_cons]
      · have hlt : x.priority_score < y.priority_score := by
          have := not_le.mp hxy
          exact this
        by_cases hx : x.priority_score = s
        · have hy : ¬ y.priority_score = s := by
            intro hcon
            rw [hx, hcon] at hlt
            exact lt_irrefl s hlt
          simp [List.orderedInsert, hxy, List.filter_cons, hy, ih, hx]
        · simp [List.orderedInsert, hxy, List.filter_cons, ih, hx]

/-- Stability of the descending-score insertion sort: filtering to any one
score value gives the same subsequence before and after sorting, i.e. tied
entries keep their original relative order. -/
theorem filter_score_insertionSort (s : ℚ) (l : List TestPriority) :
    (List.insertionSort score_desc l).filter (fun p => decide (p.priority_score = s))
      = l.filter (fun p => decide (p.priority_score = s)) := by
  induction l with
  | nil => rfl
  | cons x xs ih =>
      simp only [List.insertionSort]
      rw [filter_score_orderedInsert]
      by_cases hx : x.priority_score = s <;> simp [hx, ih, List.filter_cons]

/-- The greedy loop never accepts anything when every candidate alone
exceeds the budget (the running total stays at 0). -/
theorem greedy_select_nil_of_over_budget (time_budget : ℚ)
    (l : List TestPriority)
    (hl : ∀ p ∈ l, time_budget < p.test_case.execution_time) :
    greedy_select time_budget l 0 = [] := by
  induction l with
  | nil => rfl
  | cons p rest ih =>
      have hc : ¬ (0 + p.test_case.execution_time ≤ time_budget) := by
        have := hl p (by simp)
        intro hle
        linarith
      simp only [greedy_select, if_neg hc]
      exact ih (fun q hq => hl q (by simp [hq]))

/-- The greedy loop keeps its running total within the budget. -/
theorem greedy_select_budget_invariant (time_budget : ℚ)
    (l : List TestPriority) (total : ℚ) (h : total ≤ time_budget) :
    total + total_execution_time (greedy_select time_budget l total) ≤ time_budget := by
  induction l generalizing total with
  | nil => simpa [greedy_select, total_execution_time] using h
  | cons p rest ih =>
      by_cases hc : total + p.test_case.execution_time ≤ time_budget
      · simp only [greedy_select, if_pos hc, total_execution_time, List.map_cons,
          List.sum_cons]
        have hrec := ih (total + p.test_case.execution_time) hc
        unfold total_execution_time at hrec
        linarith
      · simp only [greedy_select, if_neg hc]
        exact ih total h

/-- Every entry produced by the scoring loop carries one of the input
test cases. -/
theorem mem_prioritize_loop (cfg : Config) (mt : Bool) (mm : Option Predictor)
    (rc : List String) (tcs : List TestCase) (h : Hist) (p : TestPriority)
    (hp : p ∈ (prioritize_loop cfg mt mm rc tcs h).1) : p.test_case ∈ tcs := by
  induction tcs generalizing h with
  | nil => simp [prioritize_loop] at hp
  | cons tc rest ih =>
      simp only [prioritize_loop, List.mem_cons] at hp
      rcases hp with rfl | hp
      · simp
      · exact List.mem_cons_of_mem _ (ih _ hp)

/-- The score computation returns the history state unchanged (it reads it
only through `.get`). -/
theorem calculate_priority_score_st_snd (cfg : Config) (mt : Bool)
    (mm : Option Predictor) (h : Hist) (tc : TestCase) (rc : List String) :
    (calculate_priority_score_st cfg mt mm h tc rc).2 = h := by
  cases mt <;> cases mm <;> rfl

/-- The scoring loop returns the history state unchanged. -/
theorem prioritize_loop_snd (cfg : Config) (mt : Bool) (mm : Option Predictor)
    (rc : List String) (tcs : List TestCase) (h : Hist) :
    (prioritize_loop cfg mt mm rc tcs h).2 = h := by
  induction tcs generalizing h with
  | nil => rfl
  | cons tc rest ih =>
      simp only [prioritize_loop]
      rw [calculate_priority_score_st_snd]
      exact ih h

/-- Dropping a prefix of known length from an append. -/
theorem drop_length_add {α : Type} (c e : List α) (i : ℕ) :
    (c ++ e).drop (c.length + i) = e.drop i := by
  induction c with
  | nil => simp
  | cons a c ih => simp [Nat.succ_add, ih]

/-- A window that fits entirely inside the right part of an append ignores
the left part. -/
theorem last_window_append_left (k : ℕ) (c e : List ℚ) (hk : k ≤ e.length) :
    last_window k (c ++ e) = last_window k e := by
  unfold last_window
  have h1 : (c ++ e).length - k = c.length + (e.length - k) := by
    rw [List.length_append]
    omega
  rw [h1, drop_length_add]

/-- Re-windowing after an append: the part of `a` outside its own window
can never re-enter the window. -/
theorem last_window_append_window (k : ℕ) (a b : List ℚ) :
    last_window k (last_window k a ++ b) = last_window k (a ++ b) := by
  by_cases hk : k ≤ a.length
  · have hlen : (a.drop (a.length - k)).length = k := by
      rw [List.length_drop]
      omega
    have h2 : a ++ b = a.take (a.length - k) ++ (a.drop (a.length - k) ++ b) := by
      rw [← List.append_assoc, List.take_append_drop]
    have h3 : last_window k (a ++ b) = last_window k (a.drop (a.length - k) ++ b) := by
      rw [h2]
      exact last_window_append_left k _ _ (by rw [List.length_append, hlen]; omega)
    have h4 : last_window k a = a.drop (a.length - k) := rfl
    rw [h4, h3]
  · have h0 : a.length - k = 0 := by omega
    have h4 : last_window k a = a := by
      unfold last_window
      rw [h0, List.drop_zero]
    rw [h4]

/-- A window never exceeds its width. -/
theorem last_window_length_le (k : ℕ) (l : List ℚ) :
    (last_window k l).length ≤ k := by
  unfold last_window
  rw [List.length_drop]
  omega

/-- One history update, written as a 50-wide window over the appended
sequence. -/
theorem update_performance_history_eq (h : Hist) (test_name : String) (v : ℚ)
    (n : String) :
    update_performance_history h test_name v n
      = if n = test_name then last_window 50 (h test_name ++ [v]) else h n := by
  by_cases hn : n = test_name
  · simp only [update_performance_history, last_window, if_pos hn]
    by_cases hlen : 50 < (h test_name ++ [v]).length
    · rw [if_pos hlen]
    · rw [if_neg hlen]
      have h0 : (h test_name ++ [v]).length - 50 = 0 := by omega
      rw [h0, List.drop_zero]
  · simp only [update_performance_history, if_neg hn]

/-- Applying a call sequence keeps, per name, the 50-wide window over the
initial window plus everything recorded for that name. -/
theorem apply_history_updates_window (calls : List (String × ℚ)) (h : Hist)
    (n : String) (hlen : (h n).length ≤ 50) :
    apply_history_updates h calls n
      = last_window 50 (h n ++ recorded_values n calls) := by
  induction calls generalizing h with
  | nil =>
      unfold apply_history_updates recorded_values last_window
      simp only [List.filter_nil, List.map_nil, List.append_nil]
      have h0 : (h n).length - 50 = 0 := by omega
      rw [h0, List.drop_zero]
  | cons c rest ih =>
      obtain ⟨m, v⟩ := c
      unfold apply_history_updates
      by_cases hnm : n = m
      · subst hnm
        rw [ih (update_performance_history h n v)
            (by rw [update_performance_history_eq, if_pos rfl]
                exact last_window_length_le 50 _)]
        rw [update_performance_history_eq, if_pos rfl]
        have hrec : recorded_values n ((n, v) :: rest) = v :: recorded_values n rest := by
          unfold recorded_values
          simp [List.filter_cons]
        rw [hrec, last_window_append_window]
        simp
      · rw [ih (update_performance_history h m v)
            (by rw [update_performance_history_eq, if_neg hnm]; exact hlen)]
        rw [update_performance_history_eq, if_neg hnm]
        have hmn : ¬ m = n := fun hc => hnm hc.symm
        have hrec : recorded_values n ((m, v) :: rest) = recorded_values n rest := by
          unfold recorded_values
          simp [List.filter_cons, hmn]
        rw [hrec]

/-- Evaluation of the default business-impact dict (all four keys). -/
theorem lookup_business_eval (b : BusinessImpact) :
    dict_get b [(BusinessImpact.CRITICAL, 1), (BusinessImpact.HIGH, 4/5),
      (BusinessImpact.MEDIUM, 1/2), (BusinessImpact.LOW, 1/5)] (1/2)
      = (match b with
         | BusinessImpact.CRITICAL => 1
         | BusinessImpact.HIGH => 4/5
         | BusinessImpact.MEDIUM => 1/2
         | BusinessImpact.LOW => 1/5) := by
  cases b <;> rfl

/-- Evaluation of the default test-type weight dict at SECURITY. -/
theorem lookup_type_security :
    dict_get "SECURITY" [("SECURITY", 1), ("API", 9/10), ("DATABASE", 4/5),
      ("INTEGRATION", 7/10), ("UNIT", 1/2), ("UI", 3/5)] (1/2) = 1 := rfl

/-- Evaluation of the default test-type weight dict at UNIT. -/
theorem lookup_type_unit :
    dict_get "UNIT" [("SECURITY", 1), ("API", 9/10), ("DATABASE", 4/5),
      ("INTEGRATION", 7/10), ("UNIT", 1/2), ("UI", 3/5)] (1/2) = 1/2 := rfl

/-! ## Claim theorems -/

/-- C1 (counterexample): for the worked-example TestCase and a trained
model whose inference raises, the final priority score is 463/875
(= 0.3 · heuristic + 0.35), which is not the heuristic score 209/350 —
the claim that the final score equals the heuristic score on model failure
is false. -/
theorem ml_failure_score_not_heuristic :
    (calculate_priority_score_st defaultConfig true (some fail_predictor)
        empty_history t1 []).1 = 463/875 ∧
    calculate_traditional_score defaultConfig t1 [] = 209/350 ∧
    ¬ ((calculate_priority_score_st defaultConfig true (some fail_predictor)
          empty_history t1 []).1
        = calculate_traditional_score defaultConfig t1 []) := by
  refine ⟨?_, ?_, ?_⟩ <;>
    norm_num [calculate_priority_score_st, calculate_ml_score_st, extract_ml_features_st,
    extract_ml_features_pure, fail_predictor, calculate_traditional_score,
    calculate_failure_score, recency_score_of, calculate_change_impact_score,
    defaultConfig, empty_history, min_def,
    lookup_business_eval, lookup_type_security, lookup_type_unit, t1]

/-- C1 (amended): when the trained model's inference raises, the ML
component falls back to the constant 0.5 — not to the heuristic — and the
final score is 0.3 · heuristic + 0.7 · 0.5; the failure is absorbed (the
scoring function is total), never propagated as an error. -/
theorem ml_failure_blends_constant_fallback (cfg : Config) (h : Hist)
    (tc : TestCase) (rc : List String) (pred : Predictor)
    (hfail : pred (extract_ml_features_pure h tc rc) = Except.error ()) :
    (calculate_priority_score_st cfg true (some pred) h tc rc).1
      = calculate_traditional_score cfg tc rc * (3/10) + (1/2) * (7/10) := by
  have hne : ¬ extract_ml_features_pure h tc rc = [] := by
    simp [extract_ml_features_pure]
  simp only [calculate_priority_score_st, calculate_ml_score_st,
    extract_ml_features_st, if_neg hne, hfail]

/-- C1 witness: the fallback formula instantiated at the worked example
with an always-raising predictor. -/
theorem ml_failure_blends_constant_fallback_witness :
    (calculate_priority_score_st defaultConfig true (some fail_predictor)
        empty_history t1 []).1
      = calculate_traditional_score defaultConfig t1 [] * (3/10) + (1/2) * (7/10) :=
  ml_failure_blends_constant_fallback defaultConfig empty_history t1 []
    fail_predictor rfl

/-- C2 (counterexample): for the spec's worked example (no changeset, no
model) the score is 209/350 ≈ 0.597 — more than 0.1 below the claimed
0.70 — and the assigned risk level is MEDIUM, not HIGH. -/
theorem t1_score_not_high_risk :
    (calculate_priority_score_st defaultConfig false none empty_history t1 []).1
      = 209/350 ∧
    determine_risk_level defaultConfig
        (calculate_priority_score_st defaultConfig false none empty_history t1 []).1
      = RiskLevel.MEDIUM ∧
    ¬ (determine_risk_level defaultConfig
          (calculate_priority_score_st defaultConfig false none empty_history t1 []).1
        = RiskLevel.HIGH) ∧
    1/10 ≤ 7/10 -
      (calculate_priority_score_st defaultConfig false none empty_history t1 []).1 := by
  refine ⟨?_, ?_, ?_, ?_⟩ <;>
    norm_num [calculate_priority_score_st, calculate_ml_score_st, extract_ml_features_st,
    extract_ml_features_pure, fail_predictor, calculate_traditional_score,
    calculate_failure_score, recency_score_of, calculate_change_impact_score,
    defaultConfig, empty_history, min_def,
    lookup_business_eval, lookup_type_security, lookup_type_unit, t1,
    determine_risk_level, List.find?]
  decide

/-- C2 (amended): the worked example's heuristic score is exactly 209/350
(≈ 0.597; failure signal 0.35, business 1.0, coverage 0.85, time 4/7,
change 0.1, category weight 1.0), which falls just below the 0.6 threshold,
so the risk level is MEDIUM. -/
theorem t1_score_is_medium_risk :
    calculate_traditional_score defaultConfig t1 [] = 209/350 ∧
    calculate_failure_score t1 = 7/20 ∧
    determine_risk_level defaultConfig
        (calculate_traditional_score defaultConfig t1 []) = RiskLevel.MEDIUM := by
  refine ⟨?_, ?_, ?_⟩ <;>
    norm_num [calculate_priority_score_st, calculate_ml_score_st, extract_ml_features_st,
    extract_ml_features_pure, fail_predictor, calculate_traditional_score,
    calculate_failure_score, recency_score_of, calculate_change_impact_score,
    defaultConfig, empty_history, min_def,
    lookup_business_eval, lookup_type_security, lookup_type_unit, t1, determine_risk_level, List.find?]

/-- C3 (counterexample): out-of-range numeric fields are not clamped — a
TestCase with code_coverage = -1000 is scored -173/200 < 0, violating
0 ≤ final_score. -/
theorem out_of_range_coverage_negative_score :
    (calculate_priority_score_st defaultConfig false none empty_history
        tc_bad_coverage []).1 = -173/200 ∧
    (calculate_priority_score_st defaultConfig false none empty_history
        tc_bad_coverage []).1 < 0 := by
  constructor <;>
    norm_num [calculate_priority_score_st, calculate_ml_score_st, extract_ml_features_st,
    extract_ml_features_pure, fail_predictor, calculate_traditional_score,
    calculate_failure_score, recency_score_of, calculate_change_impact_score,
    defaultConfig, empty_history, min_def,
    lookup_business_eval, lookup_type_security, lookup_type_unit, tc_bad_coverage]

/-- C3 (amended): for every TestCase whose numeric fields are in range
(failure_count ≥ 0, execution_time ≥ 0, 0 ≤ code_coverage ≤ 100, any last
failure not in the future), the final score — with or without a model, for
any predictor — satisfies 0 ≤ score ≤ 1, and exactly one risk level is
assigned to it. -/
theorem priority_score_in_range (model_trained : Bool)
    (ml_model : Option Predictor) (h : Hist) (tc : TestCase) (rc : List String)
    (hfc : 0 ≤ tc.failure_count) (het : 0 ≤ tc.execution_time)
    (hcc0 : 0 ≤ tc.code_coverage) (hcc1 : tc.code_coverage ≤ 100)
    (hlf : ∀ d, tc.last_failure = some (some d) → 0 ≤ d) :
    (0 ≤ (calculate_priority_score_st defaultConfig model_trained ml_model h tc rc).1 ∧
     (calculate_priority_score_st defaultConfig model_trained ml_model h tc rc).1 ≤ 1) ∧
    ∃! lvl, determine_risk_level defaultConfig
        (calculate_priority_score_st defaultConfig model_trained ml_model h tc rc).1
      = lvl := by
  obtain ⟨ht0, ht1⟩ := traditional_score_bounds tc rc hfc het hcc0 hcc1 hlf
  refine ⟨?_, _, rfl, fun y hy => hy.symm⟩
  cases model_trained with
  | false =>
      cases ml_model <;> exact ⟨ht0, ht1⟩
  | true =>
      cases ml_model with
      | none => exact ⟨ht0, ht1⟩
      | some pred =>
          obtain ⟨hm0, hm1⟩ := ml_score_bounds pred h tc rc
          simp only [calculate_priority_score_st]
          constructor <;> linarith

/-- C3 witness: bounds and unique risk level at the worked example. -/
theorem priority_score_in_range_witness :
    (0 ≤ (calculate_priority_score_st defaultConfig false none empty_history t1 []).1 ∧
     (calculate_priority_score_st defaultConfig false none empty_history t1 []).1 ≤ 1) ∧
    ∃! lvl, determine_risk_level defaultConfig
        (calculate_priority_score_st defaultConfig false none empty_history t1 []).1
      = lvl :=
  priority_score_in_range false none empty_history t1 [] (by norm_num [t1])
    (by norm_num [t1]) (by norm_num [t1]) (by norm_num [t1])
    (fun d hd => nomatch hd)

set_option maxHeartbeats 2000000 in
/-- C4 (counterexample): with a batch whose cheapest test takes 10 seconds
and the non-negative budget 0 (strictly below every execution time),
`prioritize_tests` does not return the empty list — the falsy `if
time_budget:` check skips the optimizer and the full scored list comes
back. -/
theorem zero_budget_returns_full_list :
    ((prioritize_tests_st defaultConfig false none [tcase_b] [] (some 0)
        empty_history).1.map (fun p => p.test_case.name) = ["b"]) ∧
    ¬ ((prioritize_tests_st defaultConfig false none [tcase_b] [] (some 0)
          empty_history).1 = []) ∧
    (0:ℚ) ≤ 0 ∧ (0:ℚ) < tcase_b.execution_time := by
  refine ⟨?_, ?_, by norm_num, by norm_num [tcase_b]⟩ <;>
    norm_num [calculate_priority_score_st, calculate_ml_score_st, extract_ml_features_st,
    extract_ml_features_pure, fail_predictor, calculate_traditional_score,
    calculate_failure_score, recency_score_of, calculate_change_impact_score,
    defaultConfig, empty_history, min_def,
    lookup_business_eval, lookup_type_security, lookup_type_unit, tcase_b, prioritize_tests_st, prioritize_loop,
      List.insertionSort, List.orderedInsert, score_desc,
      determine_risk_level, List.find?, generate_reasoning, recommend_frequency]

/-- C4 (amended): for every strictly positive budget smaller than every
execution time in the batch, the optimizer selects nothing and
`prioritize_tests` returns the empty list, without error; with budget 0
the optimizer itself would still select nothing, but `prioritize_tests`
treats 0 as "no budget" and skips the optimizer. -/
theorem infeasible_budget_empty_selection (budget : ℚ) (hpos : 0 < budget) :
    (∀ priorities : List TestPriority,
        (∀ p ∈ priorities, budget < p.test_case.execution_time) →
        optimize_for_time_budget priorities budget = []) ∧
    (∀ (cfg : Config) (mt : Bool) (mm : Option Predictor) (tcs : List TestCase)
        (rc : List String) (h : Hist),
        (∀ tc ∈ tcs, budget < tc.execution_time) →
        (prioritize_tests_st cfg mt mm tcs rc (some budget) h).1 = []) := by
  have hopt : ∀ priorities : List TestPriority,
      (∀ p ∈ priorities, budget < p.test_case.execution_time) →
      optimize_for_time_budget priorities budget = [] := by
    intro ps hps
    unfold optimize_for_time_budget
    refine greedy_select_nil_of_over_budget budget _ ?_
    intro p hp
    exact hps p ((List.perm_insertionSort ratio_desc ps).mem_iff.mp hp)
  refine ⟨hopt, ?_⟩
  intro cfg mt mm tcs rc h htcs
  have hb0 : ¬ budget = 0 := by linarith
  simp only [prioritize_tests_st, if_neg hb0]
  refine hopt _ ?_
  intro p hp
  have hmem : p ∈ (prioritize_loop cfg mt mm rc tcs h).1 :=
    (List.perm_insertionSort score_desc _).mem_iff.mp hp
  exact htcs p.test_case (mem_prioritize_loop cfg mt mm rc tcs h p hmem)

/-- C4 witness: budget 5 against a 10-second test, through both the bare
optimizer and the full `prioritize_tests` path. -/
theorem infeasible_budget_empty_selection_witness :
    optimize_for_time_budget [priority_ten] 5 = [] ∧
    (prioritize_tests_st defaultConfig false none [tcase_b] [] (some 5)
        empty_history).1 = [] := by
  have h := infeasible_budget_empty_selection 5 (by norm_num)
  refine ⟨h.1 [priority_ten] ?_,
         h.2 defaultConfig false none [tcase_b] [] empty_history ?_⟩ <;>
    · intro x hx
      simp only [List.mem_singleton] at hx
      subst hx
      norm_num [priority_ten, tcase_b]

/-- C5: a batch whose only CRITICAL-risk test runs for 120 s ≥ 60 s makes
the fast parallel batch empty, and the smart-phase estimated time divides
by min(0, 4) = 0 — Python raises ZeroDivisionError, so
`generate_execution_plan` raises instead of returning a plan. -/
theorem generate_execution_plan_raises_on_slow_critical :
    generate_execution_plan false [] [priority_slow_critical] = Except.error () ∧
    generate_smart_phases [priority_slow_critical] = Except.error () := by
  constructor <;> rfl

set_option maxHeartbeats 2000000 in
/-- C6 (counterexample): two tests with identical scores, supplied in name
order "b" then "a", come back from `prioritize_tests` still as
["b", "a"] — ties are not reordered into ascending name order. -/
theorem tie_order_not_by_name :
    ((prioritize_tests_st defaultConfig false none [tcase_b, tcase_a] [] none
        empty_history).1.map (fun p => p.test_case.name) = ["b", "a"]) ∧
    ((prioritize_tests_st defaultConfig false none [tcase_b, tcase_a] [] none
        empty_history).1.map (fun p => p.priority_score)
      = [249/1400, 249/1400]) ∧
    ("a" : String).data < ("b" : String).data := by
  refine ⟨?_, ?_, by decide⟩ <;>
    norm_num [calculate_priority_score_st, calculate_ml_score_st, extract_ml_features_st,
    extract_ml_features_pure, fail_predictor, calculate_traditional_score,
    calculate_failure_score, recency_score_of, calculate_change_impact_score,
    defaultConfig, empty_history, min_def,
    lookup_business_eval, lookup_type_security, lookup_type_unit, tcase_a, tcase_b, prioritize_tests_st,
      prioritize_loop, List.insertionSort, List.orderedInsert, score_desc,
      determine_risk_level, List.find?, generate_reasoning, recommend_frequency]

/-- C6 (amended): with no budget, the output of `prioritize_tests` is
sorted by score descending, and entries with equal scores appear in the
order their test cases had in the input batch (stable sort), not in name
order: filtering the output to any single score value gives exactly the
corresponding subsequence of the scored input. -/
theorem prioritize_sorted_and_stable (cfg : Config) (mt : Bool)
    (mm : Option Predictor) (tcs : List TestCase) (rc : List String) (h : Hist) :
    List.Sorted score_desc (prioritize_tests_st cfg mt mm tcs rc none h).1 ∧
    ∀ s : ℚ,
      ((prioritize_tests_st cfg mt mm tcs rc none h).1).filter
          (fun p => decide (p.priority_score = s))
        = ((prioritize_loop cfg mt mm rc tcs h).1).filter
            (fun p => decide (p.priority_score = s)) := by
  have hout : (prioritize_tests_st cfg mt mm tcs rc none h).1
      = List.insertionSort score_desc (prioritize_loop cfg mt mm rc tcs h).1 := rfl
  rw [hout]
  exact ⟨List.sorted_insertionSort score_desc _,
         fun s => filter_score_insertionSort s _⟩

/-- C7 (counterexample): with a last failure 70 days old, raising
failure_count from 0 to 1 lowers the failure signal from 1/10 to 21/220 —
the monotonicity claim is false for stale failures. -/
theorem failure_score_drops_with_stale_failure :
    calculate_failure_score { tc_old_failure with failure_count := 1 }
      < calculate_failure_score { tc_old_failure with failure_count := 0 } := by
  norm_num [calculate_failure_score, tc_old_failure, recency_score_of, min_def]

/-- C7 (amended): holding all other fields fixed, raising failure_count
from 0 to any positive value never decreases the failure signal, provided
the recency component is at least 0.1 — which holds whenever last_failure
is absent, unparseable, or at most 63 days old; a staler failure can pull
the signal below the 0.1 baseline. -/
theorem failure_score_zero_to_positive (tc : TestCase) (n : ℤ) (hn : 0 < n)
    (hrec : 1/10 ≤ recency_score_of tc.last_failure) :
    calculate_failure_score { tc with failure_count := 0 }
      ≤ calculate_failure_score { tc with failure_count := n } := by
  have h0 : calculate_failure_score { tc with failure_count := 0 } = 1/10 := by
    simp [calculate_failure_score]
  have hne : ¬ (({ tc with failure_count := n } : TestCase).failure_count = 0) := by
    simp only []
    omega
  rw [h0]
  unfold calculate_failure_score
  rw [if_neg hne]
  simp only []
  have hn1 : (1 : ℚ) ≤ (n : ℚ) := by exact_mod_cast hn
  have hmin : 1/10 ≤ min ((n : ℚ) / 10) 1 := le_min (by linarith) (by norm_num)
  linarith [hrec, hmin]

/-- C7 witness: the monotone step at the worked example (no last failure)
from failure_count 0 to 3. -/
theorem failure_score_zero_to_positive_witness :
    calculate_failure_score { t1 with failure_count := 0 }
      ≤ calculate_failure_score { t1 with failure_count := 3 } :=
  failure_score_zero_to_positive t1 3 (by norm_num)
    (by norm_num [recency_score_of, t1])

/-- C8 (counterexample): with the budget -1 and a 10-second test, the
optimizer selects nothing, and the empty selection's total 0 exceeds the
budget — the claimed constraint fails for negative budgets. -/
theorem optimizer_violates_negative_budget :
    optimize_for_time_budget [priority_ten] (-1) = [] ∧
    total_execution_time (optimize_for_time_budget [priority_ten] (-1)) = 0 ∧
    ¬ (total_execution_time (optimize_for_time_budget [priority_ten] (-1)) ≤ -1) := by
  refine ⟨?_, ?_, ?_⟩ <;>
    norm_num [optimize_for_time_budget, greedy_select, List.insertionSort,
      List.orderedInsert, ratio_desc, efficiency_ratio_of, total_execution_time,
      priority_ten, tcase_b, min_def, max_def]

/-- C8 (amended): for every input list and every non-negative budget, the
sum of execution times over the selected subset is at most the budget. -/
theorem optimizer_respects_nonneg_budget (priorities : List TestPriority)
    (time_budget : ℚ) (hb : 0 ≤ time_budget) :
    total_execution_time (optimize_for_time_budget priorities time_budget)
      ≤ time_budget := by
  have h := greedy_select_budget_invariant time_budget
      (List.insertionSort ratio_desc priorities) 0 hb
  unfold optimize_for_time_budget
  linarith

/-- C8 witness: the spec's optimizer example — budget 15 over
(score, time) pairs (0.9, 100), (0.5, 10), (0.4, 5). -/
theorem optimizer_respects_nonneg_budget_witness :
    total_execution_time (optimize_for_time_budget demo_priorities 15) ≤ 15 :=
  optimizer_respects_nonneg_budget demo_priorities 15 (by norm_num)

/-- C9: a full `prioritize_tests` run — any model state, changeset and
budget — returns the performance-history mapping unchanged: every read
goes through `.get`, which never inserts; only
`update_performance_history` produces a different state. -/
theorem prioritize_tests_preserves_history (cfg : Config) (mt : Bool)
    (mm : Option Predictor) (tcs : List TestCase) (rc : List String)
    (tb : Option ℚ) (h : Hist) :
    (prioritize_tests_st cfg mt mm tcs rc tb h).2 = h := by
  simp only [prioritize_tests_st]
  exact prioritize_loop_snd cfg mt mm rc tcs h

/-- C10: after any sequence of `update_performance_history` calls starting
from the fresh state, each name's window is exactly the 50-entry suffix of
the values recorded for it, in recording order (FIFO eviction), and so
holds at most 50 entries. -/
theorem history_window_is_last_fifty (calls : List (String × ℚ))
    (test_name : String) :
    apply_history_updates empty_history calls test_name
      = last_window 50 (recorded_values test_name calls) ∧
    (apply_history_updates empty_history calls test_name).length ≤ 50 := by
  have h := apply_history_updates_window calls empty_history test_name
    (by simp [empty_history])
  have hsimp : apply_history_updates empty_history calls test_name
      = last_window 50 (recorded_values test_name calls) := by
    rw [h]
    simp [empty_history]
  exact ⟨hsimp, by rw [hsimp]; exact last_window_length_le 50 _⟩
